import Mathlib

/-!
Shallow embedding of the endless-runner game scene (`RunnerScene` in
`src/main.ts`, the version with the explicit `hasStarted` start-screen flow).
JavaScript numbers are embedded as rationals (`ℚ`): every operation the
claims touch is exact field arithmetic, `min`/`max`/clamp, and comparisons.
The two irrational helpers of the source (`Math.sqrt` inside `tryJump` and
`Math.pow (1/f) 0.3` inside `getTouchSlideDurationMs`) are parameterised by
a `FloatOracle`, since no verified property depends on their numeric value.
-/

set_option autoImplicit false

namespace Runner

/-- Playfield width (`WIDTH = 720`). -/
def WIDTH : ℚ := 720

/-- Playfield height (`HEIGHT = 720`). -/
def HEIGHT : ℚ := 720

/-- Starting forward speed (`BASE_SPEED = 360`). -/
def BASE_SPEED : ℚ := 360

/-- Speed cap (`MAX_SPEED = 900`). -/
def MAX_SPEED : ℚ := 900

/-- Height of the ground strip (`GROUND_HEIGHT = 180`). -/
def GROUND_HEIGHT : ℚ := 180

/-- The ground surface line (`GROUND_Y = HEIGHT - GROUND_HEIGHT`). -/
def GROUND_Y : ℚ := HEIGHT - GROUND_HEIGHT

/-- Base downward gravity (`GRAVITY_Y_BASE = 1800`). -/
def GRAVITY_Y_BASE : ℚ := 1800

/-- Base jump impulse magnitude (`JUMP_VEL_BASE = 720`). -/
def JUMP_VEL_BASE : ℚ := 720

/-- Keyboard-hold slide minimum duration (`SLIDE_MIN_MS = 330`). -/
def SLIDE_MIN_MS : ℚ := 330

/-- Swipe-down slide duration at base speed (`TOUCH_SLIDE_MS_BASE = 1500`). -/
def TOUCH_SLIDE_MS_BASE : ℚ := 1500

/-- Floor for the swipe-down slide duration (`TOUCH_SLIDE_MS_MIN = 630`). -/
def TOUCH_SLIDE_MS_MIN : ℚ := 630

/-- Vertical swipe threshold (`SWIPE_Y_THRESHOLD = 55`). -/
def SWIPE_Y_THRESHOLD : ℚ := 55

/-- Horizontal swipe tolerance (`SWIPE_X_TOLERANCE = 80`). -/
def SWIPE_X_TOLERANCE : ℚ := 80

/-- `Phaser.Math.Clamp(value, lo, hi) = Math.max(lo, Math.min(hi, value))`. -/
def clampQ (value lo hi : ℚ) : ℚ := max lo (min hi value)

/-- Embedding of the two irrational JS helpers: `sqrt` is `Math.sqrt`,
`rpow03` is `x ↦ Math.pow x 0.3`.  No claim depends on their values. -/
structure FloatOracle where
  sqrt : ℚ → ℚ
  rpow03 : ℚ → ℚ

/-- A collision-box size/offset pair, as set by `body.setSize`/`body.setOffset`. -/
structure Hitbox where
  width : ℚ
  height : ℚ
  offsetX : ℚ
  offsetY : ℚ
  deriving DecidableEq

/-- The player sprite's physics-relevant state. -/
structure PlayerBody where
  x : ℚ
  y : ℚ
  velocityX : ℚ
  velocityY : ℚ
  gravityY : ℚ
  hitbox : Hitbox
  tinted : Bool
  deriving DecidableEq

/-- Obstacle kind: `type = 0` spawns a low hurdle (jump it), `type = 1`
spawns a high bar (slide under it). -/
inductive ObstacleKind
  | low
  | high
  deriving DecidableEq

/-- One member of the `obstacles` physics group. -/
structure Obstacle where
  kind : ObstacleKind
  x : ℚ
  y : ℚ
  hitbox : Hitbox
  deriving DecidableEq

/-- The overlay panel currently shown (`overlayItems`); `showOverlay` /
`showStartOverlay` always destroy the previous items first, so the overlay
is modelled as at most one panel. -/
inductive Overlay
  | startScreen
  | gameOverScreen (finalScore : ℤ)
  deriving DecidableEq

/-- The mutable fields of `RunnerScene`, plus the physics-pause flag and the
count of `once`-registered restart handlers. -/
structure Scene where
  speed : ℚ
  score : ℚ
  scoreText : ℤ
  isSliding : Bool
  slideMinUntil : ℚ
  nextSpawnAt : ℚ
  gameIsOver : Bool
  hasStarted : Bool
  touchStartX : ℚ
  touchStartY : ℚ
  touchGestureFired : Bool
  player : PlayerBody
  obstacles : List Obstacle
  overlay : Option Overlay
  physicsPaused : Bool
  pointerRestartHandlers : ℕ
  keyboardRestartHandlers : ℕ
  deriving DecidableEq

/-- The standing collision profile: `setSize(35, 110)`, `setOffset((45-35)/2, 120-110)`. -/
def standingHitbox : Hitbox :=
  { width := 35, height := 110, offsetX := (45 - 35) / 2, offsetY := 120 - 110 }

/-- The sliding collision profile: `setSize(42, 55)`, `setOffset((45-42)/2, 120-55)`. -/
def slidingHitbox : Hitbox :=
  { width := 42, height := 55, offsetX := (45 - 42) / 2, offsetY := 120 - 55 }

/-- `setPlayerHitboxStanding`: standing collider, tint cleared. -/
def setPlayerHitboxStanding (p : PlayerBody) : PlayerBody :=
  { p with hitbox := standingHitbox, tinted := false }

/-- `setPlayerHitboxSliding`: sliding collider, tint set. -/
def setPlayerHitboxSliding (p : PlayerBody) : PlayerBody :=
  { p with hitbox := slidingHitbox, tinted := true }

/-- `create()`: the fresh scene state Phaser builds on boot and on every
`scene.restart()` — run values reset, player standing and grounded at
`GROUND_Y` with zero velocity, no obstacles, physics paused behind the
start overlay, first spawn scheduled at `now + 900`. -/
def create (now : ℚ) : Scene :=
  { speed := BASE_SPEED
    score := 0
    scoreText := 0
    isSliding := false
    slideMinUntil := 0
    nextSpawnAt := now + 900
    gameIsOver := false
    hasStarted := false
    touchStartX := 0
    touchStartY := 0
    touchGestureFired := false
    player :=
      { x := 150, y := GROUND_Y, velocityX := 0, velocityY := 0,
        gravityY := GRAVITY_Y_BASE, hitbox := standingHitbox, tinted := false }
    obstacles := []
    overlay := some Overlay.startScreen
    physicsPaused := true
    pointerRestartHandlers := 0
    keyboardRestartHandlers := 0 }

/-- `startGame()`: guarded by `hasStarted || gameIsOver`; otherwise clears the
overlay, resets the run values, empties the obstacle group, restores the
grounded standing player, reschedules the first spawn and resumes physics. -/
def startGame (now : ℚ) (s : Scene) : Scene :=
  if s.hasStarted || s.gameIsOver then s
  else
    { s with
      hasStarted := true
      overlay := none
      speed := BASE_SPEED
      score := 0
      scoreText := 0
      isSliding := false
      slideMinUntil := 0
      obstacles := []
      player :=
        setPlayerHitboxStanding
          { s.player with velocityX := 0, velocityY := 0, y := GROUND_Y }
      nextSpawnAt := now + 900
      physicsPaused := false }

/-- `getSpeedFactor()`: `Clamp(speed / BASE_SPEED, 1, MAX_SPEED / BASE_SPEED)`. -/
def getSpeedFactor (speed : ℚ) : ℚ :=
  clampQ (speed / BASE_SPEED) 1 (MAX_SPEED / BASE_SPEED)

/-- `getTouchSlideDurationMs()`:
`round (Clamp (TOUCH_SLIDE_MS_BASE * (1/f)^0.3) TOUCH_SLIDE_MS_MIN TOUCH_SLIDE_MS_BASE)`. -/
def getTouchSlideDurationMs (ext : FloatOracle) (speed : ℚ) : ℚ :=
  let f := getSpeedFactor speed
  let raw := TOUCH_SLIDE_MS_BASE * ext.rpow03 (1 / f)
  ((round (clampQ raw TOUCH_SLIDE_MS_MIN TOUCH_SLIDE_MS_BASE) : ℤ) : ℚ)

/-- `endSlide()`: clears `isSliding` and restores the standing hitbox. -/
def endSlide (s : Scene) : Scene :=
  { s with isSliding := false, player := setPlayerHitboxStanding s.player }

/-- `tryJump()`: no-op unless the physics body is blocked downward
(`grounded`); otherwise ends an active slide and applies the speed-scaled
upward velocity `-JUMP_VEL_BASE * sqrt f`. -/
def tryJump (ext : FloatOracle) (grounded : Bool) (s : Scene) : Scene :=
  if !grounded then s
  else
    let s1 := if s.isSliding then endSlide s else s
    let f := getSpeedFactor s1.speed
    { s1 with player := { s1.player with velocityY := -(JUMP_VEL_BASE * ext.sqrt f) } }

/-- `startSlideFor(time, durationMs)`: no-op unless grounded; enters the
sliding hitbox on first entry and extends
`slideMinUntil = max slideMinUntil (time + durationMs)`. -/
def startSlideFor (grounded : Bool) (time durationMs : ℚ) (s : Scene) : Scene :=
  if !grounded then s
  else
    let s1 :=
      if !s.isSliding then
        { s with isSliding := true, player := setPlayerHitboxSliding s.player }
      else s
    { s1 with slideMinUntil := max s1.slideMinUntil (time + durationMs) }

/-- `spawnObstacle()`: appends one obstacle at `x = WIDTH + 120` to the
group; `low` is the ground hurdle (body 36×31, offset (2,2)), `high` is the
bar whose bottom sits at `GROUND_Y - 105` (body 65×26, offset (2,4)).  The
random `Phaser.Math.Between(0,1)` draw is the `spawnLow` input. -/
def spawnObstacle (spawnLow : Bool) (s : Scene) : Scene :=
  if spawnLow then
    { s with
      obstacles := s.obstacles ++
        [{ kind := ObstacleKind.low, x := WIDTH + 120, y := GROUND_Y,
           hitbox := { width := 36, height := 31, offsetX := 2, offsetY := 2 } }] }
  else
    { s with
      obstacles := s.obstacles ++
        [{ kind := ObstacleKind.high, x := WIDTH + 120, y := GROUND_Y - 105,
           hitbox := { width := 65, height := 26, offsetX := 2, offsetY := 4 } }] }

/-- `gameOver()`: guarded by `gameIsOver`; otherwise sets the flag, pauses
physics, replaces the overlay with the game-over panel showing
`Math.floor(score)`, and registers one pointer and one keyboard
`once`-restart handler. -/
def gameOver (s : Scene) : Scene :=
  if s.gameIsOver then s
  else
    { s with
      gameIsOver := true
      physicsPaused := true
      overlay := some (Overlay.gameOverScreen ⌊s.score⌋)
      pointerRestartHandlers := s.pointerRestartHandlers + 1
      keyboardRestartHandlers := s.keyboardRestartHandlers + 1 }

/-- `update(time, delta)`: the per-frame entry point.  The physics ground
query, the `JustDown(jumpKey)` edge, the held slide keys and the random
spawn kind are frame inputs. -/
def update (ext : FloatOracle) (time delta : ℚ)
    (grounded jumpJustDown slideHeld spawnLow : Bool) (s : Scene) : Scene :=
  if s.gameIsOver then s
  else if !s.hasStarted then s
  else
    let speed1 := min MAX_SPEED (s.speed + delta * 0.015)
    let f := getSpeedFactor speed1
    let s1 := { s with speed := speed1,
                       player := { s.player with gravityY := GRAVITY_Y_BASE * f } }
    let score1 := s1.score + delta * s1.speed / 1000
    let s2 := { s1 with score := score1, scoreText := ⌊score1⌋ }
    let s3 := if jumpJustDown then tryJump ext grounded s2 else s2
    let s4 :=
      if slideHeld then startSlideFor grounded time SLIDE_MIN_MS s3
      else if s3.isSliding && decide (s3.slideMinUntil ≤ time) then endSlide s3
      else s3
    let s5 :=
      if s4.nextSpawnAt ≤ time then
        let s4a := spawnObstacle spawnLow s4
        let gap := clampQ (920 - (s4a.speed - BASE_SPEED) * 0.8) 560 920
        { s4a with nextSpawnAt := time + gap }
      else s4
    { s5 with
      obstacles :=
        (s5.obstacles.map fun o => { o with x := o.x - s5.speed * delta / 1000 }).filter
          fun o => decide (-200 ≤ o.x) }

/-- Gesture classification of a pointer drag `(dx, dy)`, exactly the
conditional chain of the `pointermove` handler: mostly-horizontal motion is
ignored, then `dy > SWIPE_Y_THRESHOLD` slides and `dy < -SWIPE_Y_THRESHOLD`
jumps. -/
inductive GestureCmd
  | slide
  | jump
  deriving DecidableEq

/-- The drag classification used by the `pointermove` handler. -/
def classifyGesture (dx dy : ℚ) : Option GestureCmd :=
  if |dx| > SWIPE_X_TOLERANCE ∧ |dx| > |dy| then none
  else if dy > SWIPE_Y_THRESHOLD then some GestureCmd.slide
  else if dy < -SWIPE_Y_THRESHOLD then some GestureCmd.jump
  else none

/-- The `pointerdown` handler: ignored when the run is over; starts the game
when not yet started; otherwise records the drag origin and clears the
fired-this-drag flag. -/
def pointerdown (now px py : ℚ) (s : Scene) : Scene :=
  if s.gameIsOver then s
  else if !s.hasStarted then startGame now s
  else { s with touchStartX := px, touchStartY := py, touchGestureFired := false }

/-- The `pointermove` handler: while running, pressed and not yet fired this
drag, classifies `(dx, dy)` from the recorded origin; a down-swipe sets the
fired flag and slides for `getTouchSlideDurationMs`, an up-swipe sets the
fired flag and jumps. -/
def pointermove (ext : FloatOracle) (now px py : ℚ) (isDown grounded : Bool)
    (s : Scene) : Scene :=
  if s.gameIsOver then s
  else if !s.hasStarted then s
  else if !isDown then s
  else if s.touchGestureFired then s
  else
    let dx := px - s.touchStartX
    let dy := py - s.touchStartY
    match classifyGesture dx dy with
    | some GestureCmd.slide =>
        startSlideFor grounded now (getTouchSlideDurationMs ext s.speed)
          { s with touchGestureFired := true }
    | some GestureCmd.jump =>
        tryJump ext grounded { s with touchGestureFired := true }
    | none => s

/-- The `pointerup` handler: clears the fired-this-drag flag. -/
def pointerup (s : Scene) : Scene :=
  { s with touchGestureFired := false }

/-- The UP-key `down` handler: starts the game when not yet started,
otherwise jumps. -/
def upKeyDown (ext : FloatOracle) (now : ℚ) (grounded : Bool) (s : Scene) : Scene :=
  if !s.hasStarted then startGame now s else tryJump ext grounded s

/-- The restart wiring armed by `gameOver`: the next pointer-down or
key-down after game over calls `scene.restart()`, which rebuilds the scene
through `create`. -/
def restartInput (now : ℚ) (s : Scene) : Scene :=
  if s.gameIsOver then create now else s

/-- One in-run interaction of the scene: a rendered frame, an UP-key edge,
the three pointer events, or the obstacle-overlap event that triggers
`gameOver`.  `scene.restart()` (which tears the run down) is modelled
separately by `restartInput`. -/
inductive Event
  | frame (time delta : ℚ) (grounded jumpJustDown slideHeld spawnLow : Bool)
  | upKey (now : ℚ) (grounded : Bool)
  | pdown (now px py : ℚ)
  | pmove (now px py : ℚ) (isDown grounded : Bool)
  | pup
  | overlap
  deriving DecidableEq

/-- Dispatch of one in-run event to its handler. -/
def step (ext : FloatOracle) (s : Scene) : Event → Scene
  | Event.frame time delta grounded jumpJustDown slideHeld spawnLow =>
      update ext time delta grounded jumpJustDown slideHeld spawnLow s
  | Event.upKey now grounded => upKeyDown ext now grounded s
  | Event.pdown now px py => pointerdown now px py s
  | Event.pmove now px py isDown grounded => pointermove ext now px py isDown grounded s
  | Event.pup => pointerup s
  | Event.overlap => gameOver s

/-- An event's frame delta is non-negative (trivially true for non-frame
events); the host runtime guarantees this for real frames. -/
def eventDeltaOk : Event → Bool
  | Event.frame _ delta _ _ _ _ => decide (0 ≤ delta)
  | _ => true

/-- Folding a list of in-run events from a state. -/
def runEvents (ext : FloatOracle) (s : Scene) (es : List Event) : Scene :=
  es.foldl (step ext) s

/-- A concrete float oracle for witnesses; the claims hold for every oracle. -/
def idOracle : FloatOracle :=
  { sqrt := fun q => q, rpow03 := fun q => q }

/-- One `pointermove` dispatch of a drag: its pointer coordinates, pressed
flag, and the contemporaneous physics ground query. -/
structure PMove where
  now : ℚ
  px : ℚ
  py : ℚ
  isDown : Bool
  grounded : Bool
  deriving DecidableEq

/-- Whether a `pointermove` dispatch fires a command (reaches the
classification with the fired flag clear and classifies as a gesture). -/
def pmoveFires (px py : ℚ) (isDown : Bool) (s : Scene) : Bool :=
  !s.gameIsOver && s.hasStarted && isDown && !s.touchGestureFired &&
    (classifyGesture (px - s.touchStartX) (py - s.touchStartY)).isSome

/-- How many commands a sequence of `pointermove` dispatches fires from a
given state (no `pointerup` in between, i.e. within one drag). -/
def dragFireCount (ext : FloatOracle) (s : Scene) : List PMove → ℕ
  | [] => 0
  | m :: ms =>
      (if pmoveFires m.px m.py m.isDown s then 1 else 0) +
        dragFireCount ext (pointermove ext m.now m.px m.py m.isDown m.grounded s) ms

/-- A concrete mid-run state used by witnesses: the scene right after the
first start input. -/
def runningState : Scene := startGame 0 (create 0)

/-- A concrete game-over state used by witnesses: the running state after an
obstacle overlap. -/
def overState : Scene := gameOver runningState

/-- A concrete mid-drag state used by witnesses: the running state after a
gesture already fired this drag. -/
def firedState : Scene := { runningState with touchGestureFired := true }

/-! ### Projection lemmas for the individual operations -/

lemma endSlide_speed (s : Scene) : (endSlide s).speed = s.speed := rfl

lemma endSlide_nextSpawnAt (s : Scene) : (endSlide s).nextSpawnAt = s.nextSpawnAt := rfl

lemma endSlide_hasStarted (s : Scene) : (endSlide s).hasStarted = s.hasStarted := rfl

lemma tryJump_speed (ext : FloatOracle) (g : Bool) (s : Scene) :
    (tryJump ext g s).speed = s.speed := by
  unfold tryJump
  split_ifs <;> rfl

lemma tryJump_nextSpawnAt (ext : FloatOracle) (g : Bool) (s : Scene) :
    (tryJump ext g s).nextSpawnAt = s.nextSpawnAt := by
  unfold tryJump
  split_ifs <;> rfl

lemma tryJump_hasStarted (ext : FloatOracle) (g : Bool) (s : Scene) :
    (tryJump ext g s).hasStarted = s.hasStarted := by
  unfold tryJump
  split_ifs <;> rfl

lemma tryJump_touchGestureFired (ext : FloatOracle) (g : Bool) (s : Scene) :
    (tryJump ext g s).touchGestureFired = s.touchGestureFired := by
  unfold tryJump
  split_ifs <;> rfl

lemma startSlideFor_speed (g : Bool) (t d : ℚ) (s : Scene) :
    (startSlideFor g t d s).speed = s.speed := by
  unfold startSlideFor
  split_ifs <;> rfl

lemma startSlideFor_nextSpawnAt (g : Bool) (t d : ℚ) (s : Scene) :
    (startSlideFor g t d s).nextSpawnAt = s.nextSpawnAt := by
  unfold startSlideFor
  split_ifs <;> rfl

lemma startSlideFor_hasStarted (g : Bool) (t d : ℚ) (s : Scene) :
    (startSlideFor g t d s).hasStarted = s.hasStarted := by
  unfold startSlideFor
  split_ifs <;> rfl

lemma startSlideFor_touchGestureFired (g : Bool) (t d : ℚ) (s : Scene) :
    (startSlideFor g t d s).touchGestureFired = s.touchGestureFired := by
  unfold startSlideFor
  split_ifs <;> rfl

lemma spawnObstacle_speed (b : Bool) (s : Scene) :
    (spawnObstacle b s).speed = s.speed := by
  unfold spawnObstacle
  split_ifs <;> rfl

lemma spawnObstacle_nextSpawnAt (b : Bool) (s : Scene) :
    (spawnObstacle b s).nextSpawnAt = s.nextSpawnAt := by
  unfold spawnObstacle
  split_ifs <;> rfl

lemma spawnObstacle_hasStarted (b : Bool) (s : Scene) :
    (spawnObstacle b s).hasStarted = s.hasStarted := by
  unfold spawnObstacle
  split_ifs <;> rfl

lemma gameOver_speed (s : Scene) : (gameOver s).speed = s.speed := by
  unfold gameOver
  split_ifs <;> rfl

lemma gameOver_hasStarted (s : Scene) : (gameOver s).hasStarted = s.hasStarted := by
  unfold gameOver
  split_ifs <;> rfl

lemma update_noop (ext : FloatOracle) (t d : ℚ) (g j sh sp : Bool) (s : Scene)
    (h : s.gameIsOver = true ∨ s.hasStarted = false) :
    update ext t d g j sh sp s = s := by
  unfold update
  rcases h with h | h <;> simp [h]

lemma update_running_speed (ext : FloatOracle) (t d : ℚ) (g j sh sp : Bool) (s : Scene)
    (h1 : s.gameIsOver = false) (h2 : s.hasStarted = true) :
    (update ext t d g j sh sp s).speed = min MAX_SPEED (s.speed + d * 0.015) := by
  unfold update
  simp only [h1, h2, Bool.not_true, Bool.false_eq_true, if_false, Bool.not_false]
  split_ifs <;>
    simp [tryJump_speed, startSlideFor_speed, endSlide_speed, spawnObstacle_speed]

lemma update_running_nextSpawnAt (ext : FloatOracle) (t d : ℚ) (g j sh sp : Bool) (s : Scene)
    (h1 : s.gameIsOver = false) (h2 : s.hasStarted = true) (h3 : s.nextSpawnAt ≤ t) :
    (update ext t d g j sh sp s).nextSpawnAt =
      t + clampQ (920 - (min MAX_SPEED (s.speed + d * 0.015) - BASE_SPEED) * 0.8) 560 920 := by
  unfold update
  simp only [h1, h2, Bool.not_true, Bool.false_eq_true, if_false, Bool.not_false]
  split_ifs <;>
    simp_all [tryJump_speed, startSlideFor_speed, endSlide_speed, spawnObstacle_speed,
      tryJump_nextSpawnAt, startSlideFor_nextSpawnAt, endSlide_nextSpawnAt,
      spawnObstacle_nextSpawnAt]

lemma clampQ_mem (v lo hi : ℚ) (h : lo ≤ hi) :
    lo ≤ clampQ v lo hi ∧ clampQ v lo hi ≤ hi := by
  constructor
  · exact le_max_left _ _
  · exact max_le h (min_le_left _ _)

lemma update_hasStarted (ext : FloatOracle) (t d : ℚ) (g j sh sp : Bool) (s : Scene) :
    (update ext t d g j sh sp s).hasStarted = s.hasStarted := by
  unfold update
  split_ifs <;>
    simp_all [tryJump_hasStarted, startSlideFor_hasStarted, endSlide_hasStarted,
      spawnObstacle_hasStarted] <;>
    split_ifs <;>
    simp_all [tryJump_hasStarted, startSlideFor_hasStarted, endSlide_hasStarted,
      spawnObstacle_hasStarted]

lemma upKeyDown_speed (ext : FloatOracle) (now : ℚ) (g : Bool) (s : Scene)
    (h : s.hasStarted = true) : (upKeyDown ext now g s).speed = s.speed := by
  unfold upKeyDown
  simp [h, tryJump_speed]

lemma pointerdown_speed (now px py : ℚ) (s : Scene) (h : s.hasStarted = true) :
    (pointerdown now px py s).speed = s.speed := by
  unfold pointerdown
  split_ifs <;> simp_all

lemma pointermove_speed (ext : FloatOracle) (now px py : ℚ) (dwn g : Bool) (s : Scene) :
    (pointermove ext now px py dwn g s).speed = s.speed := by
  unfold pointermove
  split_ifs <;> try rfl
  cases hc : classifyGesture (px - s.touchStartX) (py - s.touchStartY) with
  | none => simp [hc]
  | some c => cases c <;> simp [hc, startSlideFor_speed, tryJump_speed]

lemma upKeyDown_hasStarted (ext : FloatOracle) (now : ℚ) (g : Bool) (s : Scene)
    (h : s.hasStarted = true) : (upKeyDown ext now g s).hasStarted = true := by
  unfold upKeyDown
  simp [h, tryJump_hasStarted]

lemma pointerdown_hasStarted (now px py : ℚ) (s : Scene) (h : s.hasStarted = true) :
    (pointerdown now px py s).hasStarted = true := by
  unfold pointerdown
  split_ifs <;> simp_all

lemma pointermove_hasStarted (ext : FloatOracle) (now px py : ℚ) (dwn g : Bool) (s : Scene)
    (h : s.hasStarted = true) : (pointermove ext now px py dwn g s).hasStarted = true := by
  unfold pointermove
  split_ifs <;> try exact h
  cases hc : classifyGesture (px - s.touchStartX) (py - s.touchStartY) with
  | none => simpa [hc] using h
  | some c => cases c <;> simp_all [hc, startSlideFor_hasStarted, tryJump_hasStarted]

lemma step_hasStarted (ext : FloatOracle) (e : Event) (s : Scene)
    (h : s.hasStarted = true) : (step ext s e).hasStarted = true := by
  cases e with
  | frame t d g j sh sp => rw [step, update_hasStarted]; exact h
  | upKey now g => exact upKeyDown_hasStarted ext now g s h
  | pdown now px py => exact pointerdown_hasStarted now px py s h
  | pmove now px py dwn g => exact pointermove_hasStarted ext now px py dwn g s h
  | pup => exact h
  | overlap => rw [step, gameOver_hasStarted]; exact h

lemma update_speed_cases (ext : FloatOracle) (t d : ℚ) (g j sh sp : Bool) (s : Scene) :
    (update ext t d g j sh sp s).speed = s.speed ∨
      (update ext t d g j sh sp s).speed = min MAX_SPEED (s.speed + d * 0.015) := by
  by_cases ho : s.gameIsOver = true
  · left
    rw [update_noop ext t d g j sh sp s (Or.inl ho)]
  · by_cases hs : s.hasStarted = true
    · right
      exact update_running_speed ext t d g j sh sp s (by simpa using ho) hs
    · left
      rw [update_noop ext t d g j sh sp s (Or.inr (by simpa using hs))]

lemma step_speed_bounds (ext : FloatOracle) (e : Event) (s : Scene)
    (h : s.hasStarted = true) (hd : eventDeltaOk e = true)
    (hlo : BASE_SPEED ≤ s.speed) (hhi : s.speed ≤ MAX_SPEED) :
    s.speed ≤ (step ext s e).speed ∧ BASE_SPEED ≤ (step ext s e).speed ∧
      (step ext s e).speed ≤ MAX_SPEED := by
  cases e with
  | frame t d g j sh sp =>
      have hd0 : (0 : ℚ) ≤ d := by simpa [eventDeltaOk] using hd
      have hd15 : (0 : ℚ) ≤ d * 0.015 := by positivity
      rcases update_speed_cases ext t d g j sh sp s with hc | hc <;> rw [step, hc]
      · exact ⟨le_refl _, hlo, hhi⟩
      · refine ⟨le_min hhi (le_add_of_nonneg_right hd15), le_min ?_ ?_, min_le_left _ _⟩
        · norm_num [BASE_SPEED, MAX_SPEED]
        · exact le_trans hlo (le_add_of_nonneg_right hd15)
  | upKey now g =>
      rw [step, upKeyDown_speed ext now g s h]
      exact ⟨le_refl _, hlo, hhi⟩
  | pdown now px py =>
      rw [step, pointerdown_speed now px py s h]
      exact ⟨le_refl _, hlo, hhi⟩
  | pmove now px py dwn g =>
      rw [step, pointermove_speed]
      exact ⟨le_refl _, hlo, hhi⟩
  | pup =>
      exact ⟨le_refl _, hlo, hhi⟩
  | overlap =>
      rw [step, gameOver_speed]
      exact ⟨le_refl _, hlo, hhi⟩

lemma pmoveFires_of_fired (px py : ℚ) (dwn : Bool) (s : Scene)
    (h : s.touchGestureFired = true) : pmoveFires px py dwn s = false := by
  simp [pmoveFires, h]

lemma fired_pointermove_noop (ext : FloatOracle) (now px py : ℚ) (dwn g : Bool) (s : Scene)
    (h : s.touchGestureFired = true) : pointermove ext now px py dwn g s = s := by
  unfold pointermove
  split_ifs <;> simp_all

lemma pmove_not_fires_noop (ext : FloatOracle) (now px py : ℚ) (dwn g : Bool) (s : Scene)
    (h : pmoveFires px py dwn s = false) : pointermove ext now px py dwn g s = s := by
  unfold pointermove
  unfold pmoveFires at h
  split_ifs with h1 h2 h3 h4 <;> try rfl
  cases hc : classifyGesture (px - s.touchStartX) (py - s.touchStartY) with
  | none => simp [hc]
  | some c => simp_all [hc]

lemma pmove_fires_sets_fired (ext : FloatOracle) (now px py : ℚ) (dwn g : Bool) (s : Scene)
    (h : pmoveFires px py dwn s = true) :
    (pointermove ext now px py dwn g s).touchGestureFired = true := by
  unfold pmoveFires at h
  simp only [Bool.and_eq_true, Bool.not_eq_true'] at h
  obtain ⟨⟨⟨⟨hov, hst⟩, hdw⟩, hfi⟩, hsome⟩ := h
  unfold pointermove
  split_ifs with h1 h2 h3 h4 <;> try simp_all
  cases hc : classifyGesture (px - s.touchStartX) (py - s.touchStartY) with
  | none => simp [hc] at hsome
  | some c =>
      cases c <;>
        simp [hc, startSlideFor_touchGestureFired, tryJump_touchGestureFired]

lemma fired_dragFireCount_zero (ext : FloatOracle) (s : Scene) (ms : List PMove)
    (h : s.touchGestureFired = true) : dragFireCount ext s ms = 0 := by
  induction ms generalizing s with
  | nil => rfl
  | cons m ms ih =>
      unfold dragFireCount
      rw [if_neg, fired_pointermove_noop ext m.now m.px m.py m.isDown m.grounded s h,
        ih s h]
      simp [pmoveFires_of_fired _ _ _ _ h]

lemma dragFireCount_le_one (ext : FloatOracle) (s : Scene) (ms : List PMove) :
    dragFireCount ext s ms ≤ 1 := by
  induction ms generalizing s with
  | nil => simp [dragFireCount]
  | cons m ms ih =>
      unfold dragFireCount
      by_cases hf : pmoveFires m.px m.py m.isDown s = true
      · rw [if_pos hf,
          fired_dragFireCount_zero ext _ ms
            (pmove_fires_sets_fired ext m.now m.px m.py m.isDown m.grounded s hf)]
      · have hf' : pmoveFires m.px m.py m.isDown s = false := by
          simpa using hf
        rw [if_neg hf, pmove_not_fires_noop ext m.now m.px m.py m.isDown m.grounded s hf']
        simpa using ih s

/-! ### Claim theorems -/

/-- C1: while the run is over or not yet started (`gameIsOver = true` or
`hasStarted = false`), `update` is a no-op; in particular it mutates neither
`score` nor `speed`. -/
theorem c1_update_noop_when_not_running (ext : FloatOracle) (t d : ℚ)
    (g j sh sp : Bool) (s : Scene)
    (h : s.gameIsOver = true ∨ s.hasStarted = false) :
    (update ext t d g j sh sp s).score = s.score ∧
      (update ext t d g j sh sp s).speed = s.speed ∧
      update ext t d g j sh sp s = s := by
  have hs := update_noop ext t d g j sh sp s h
  exact ⟨by rw [hs], by rw [hs], hs⟩

/-- C1 witness: the fresh scene has not started, and a frame leaves it
untouched; the same at a game-over state. -/
theorem c1_update_noop_when_not_running_witness :
    (update idOracle 16 16 true false false true (create 0)).score = (create 0).score ∧
      (update idOracle 16 16 true false false true (create 0)).speed = (create 0).speed ∧
      update idOracle 16 16 true false false true (create 0) = create 0 :=
  c1_update_noop_when_not_running idOracle 16 16 true false false true (create 0)
    (Or.inr (by decide))

/-- C3: `startSlideFor` only ever extends the slide window: for a grounded
player it sets `slideMinUntil` to `max slideMinUntil (now + durationMs)`, it
never shortens the window, and two calls at the same instant `t` with
durations `d1` then `d2 < d1` (the window not already reaching past
`t + d1`) leave `slideMinUntil = t + d1`. -/
theorem c3_startSlideFor_extends (s : Scene) (t d d1 d2 : ℚ) :
    (startSlideFor true t d s).slideMinUntil = max s.slideMinUntil (t + d) ∧
      (∀ g : Bool, s.slideMinUntil ≤ (startSlideFor g t d s).slideMinUntil) ∧
      (s.slideMinUntil ≤ t + d1 → d2 < d1 →
        (startSlideFor true t d2 (startSlideFor true t d1 s)).slideMinUntil = t + d1) := by
  have hmax : ∀ u : Scene, (startSlideFor true t d u).slideMinUntil =
      max u.slideMinUntil (t + d) := by
    intro u
    unfold startSlideFor
    split_ifs with h1 h2
    · simp at h1
    · rfl
    · rfl
  have hmax1 : (startSlideFor true t d1 s).slideMinUntil = max s.slideMinUntil (t + d1) := by
    unfold startSlideFor
    split_ifs with h1 h2
    · simp at h1
    · rfl
    · rfl
  have hmax2 : ∀ u : Scene, (startSlideFor true t d2 u).slideMinUntil =
      max u.slideMinUntil (t + d2) := by
    intro u
    unfold startSlideFor
    split_ifs with h1 h2
    · simp at h1
    · rfl
    · rfl
  refine ⟨hmax s, ?_, ?_⟩
  · intro g
    cases g
    · simp [startSlideFor]
    · rw [hmax s]
      exact le_max_left _ _
  · intro hle hlt
    rw [hmax2 _, hmax1, max_eq_right hle, max_eq_left]
    exact add_le_add_left hlt.le t

/-- C3 witness: at the fresh running state, a 330 ms slide at `t = 100`
extends the window to 430, and calling with 500 ms then 400 ms at `t = 100`
leaves the window at 600. -/
theorem c3_startSlideFor_extends_witness :
    (startSlideFor true 100 330 runningState).slideMinUntil =
        max runningState.slideMinUntil (100 + 330) ∧
      (startSlideFor true 100 400 (startSlideFor true 100 500 runningState)).slideMinUntil =
        100 + 500 := by
  obtain ⟨h1, _, h3⟩ := c3_startSlideFor_extends runningState 100 330 500 400
  exact ⟨h1, h3 (by norm_num [runningState, startGame, create]) (by norm_num)⟩

/-- C4: `gameOver` is idempotent — on a state where `gameIsOver` already
holds it changes nothing: no state change, no new overlay, no additional
restart handlers. -/
theorem c4_gameOver_idempotent (s : Scene) (h : s.gameIsOver = true) :
    gameOver s = s := by
  unfold gameOver
  simp [h]

/-- C4 witness: a second `gameOver` on the concrete game-over state is the
identity. -/
theorem c4_gameOver_idempotent_witness : gameOver overState = overState :=
  c4_gameOver_idempotent overState (by decide)

/-- C8: `tryJump` while airborne (the physics body not blocked downward) is
a complete no-op: the state is unchanged, so in particular vertical
velocity, hitbox profile and the sliding flag are untouched. -/
theorem c8_tryJump_airborne_noop (ext : FloatOracle) (s : Scene) :
    tryJump ext false s = s ∧
      (tryJump ext false s).player.velocityY = s.player.velocityY ∧
      (tryJump ext false s).player.hitbox = s.player.hitbox ∧
      (tryJump ext false s).isSliding = s.isSliding :=
  ⟨rfl, rfl, rfl, rfl⟩

/-- C10: `startGame` is a no-op once the run has started or is over: a
second start input cannot reset score, speed or anything else. -/
theorem c10_startGame_noop (now : ℚ) (s : Scene)
    (h : s.hasStarted = true ∨ s.gameIsOver = true) :
    startGame now s = s := by
  unfold startGame
  rcases h with h | h <;> simp [h]

/-- C10 witness: a second start input on the already-running concrete state
changes nothing. -/
theorem c10_startGame_noop_witness : startGame 5 runningState = runningState :=
  c10_startGame_noop 5 runningState (Or.inl (by decide))

lemma restartInput_of_over (now : ℚ) (s : Scene) (h : s.gameIsOver = true) :
    restartInput now s = create now := by
  unfold restartInput
  simp [h]

/-- C5 counterexample: from the concrete game-over state, a single restart
input does NOT land in a started, resumed Running state — the rebuilt scene
has `hasStarted = false` and physics paused behind the start overlay. -/
theorem c5_restart_counterexample :
    ¬ ((restartInput 5 overState).hasStarted = true ∧
        (restartInput 5 overState).gameIsOver = false ∧
        (restartInput 5 overState).physicsPaused = false) := by
  decide

/-- C5 amended: from the GameOver state, a single restart input rebuilds the
scene through `create`, re-entering the NotStarted state — a fresh run
(score 0, speed `BASE_SPEED`, not over) but with `hasStarted = false`,
physics paused, and the start overlay shown, so a further start input is
required to resume Running. -/
theorem c5_restart_reenters_notStarted (now : ℚ) (s : Scene)
    (h : s.gameIsOver = true) :
    restartInput now s = create now ∧
      (restartInput now s).hasStarted = false ∧
      (restartInput now s).gameIsOver = false ∧
      (restartInput now s).physicsPaused = true ∧
      (restartInput now s).overlay = some Overlay.startScreen ∧
      (restartInput now s).score = 0 ∧
      (restartInput now s).speed = BASE_SPEED := by
  have hs := restartInput_of_over now s h
  rw [hs]
  exact ⟨rfl, rfl, rfl, rfl, rfl, rfl, rfl⟩

/-- C5 amended witness: the concrete game-over state, restarted at `now = 5`. -/
theorem c5_restart_reenters_notStarted_witness :
    restartInput 5 overState = create 5 ∧
      (restartInput 5 overState).hasStarted = false ∧
      (restartInput 5 overState).gameIsOver = false ∧
      (restartInput 5 overState).physicsPaused = true ∧
      (restartInput 5 overState).overlay = some Overlay.startScreen ∧
      (restartInput 5 overState).score = 0 ∧
      (restartInput 5 overState).speed = BASE_SPEED :=
  c5_restart_reenters_notStarted 5 overState (by decide)

/-- C6: restarting after game over resets the run state: score 0, speed
`BASE_SPEED`, no obstacles, the standing 35×110 hitbox profile, the player
grounded at the ground line with zero velocity, and `isSliding = false`. -/
theorem c6_restart_resets (now : ℚ) (s : Scene) (h : s.gameIsOver = true) :
    (restartInput now s).score = 0 ∧
      (restartInput now s).speed = BASE_SPEED ∧
      (restartInput now s).obstacles = [] ∧
      (restartInput now s).player.hitbox = standingHitbox ∧
      (restartInput now s).player.hitbox.width = 35 ∧
      (restartInput now s).player.hitbox.height = 110 ∧
      (restartInput now s).player.y = GROUND_Y ∧
      (restartInput now s).player.velocityX = 0 ∧
      (restartInput now s).player.velocityY = 0 ∧
      (restartInput now s).isSliding = false := by
  have hs := restartInput_of_over now s h
  rw [hs]
  exact ⟨rfl, rfl, rfl, rfl, rfl, rfl, rfl, rfl, rfl, rfl⟩

/-- C6 witness: the concrete game-over state, restarted at `now = 7`. -/
theorem c6_restart_resets_witness :
    (restartInput 7 overState).score = 0 ∧
      (restartInput 7 overState).speed = BASE_SPEED ∧
      (restartInput 7 overState).obstacles = [] ∧
      (restartInput 7 overState).player.hitbox = standingHitbox ∧
      (restartInput 7 overState).player.hitbox.width = 35 ∧
      (restartInput 7 overState).player.hitbox.height = 110 ∧
      (restartInput 7 overState).player.y = GROUND_Y ∧
      (restartInput 7 overState).player.velocityX = 0 ∧
      (restartInput 7 overState).player.velocityY = 0 ∧
      (restartInput 7 overState).isSliding = false :=
  c6_restart_resets 7 overState (by decide)

/-- C2: within a single run (state already started, no restart among the
events), speed never decreases across any sequence of in-run events whose
frame deltas are non-negative, and it stays within
`[BASE_SPEED, MAX_SPEED]` if it started there. -/
theorem c2_speed_monotone_bounded (ext : FloatOracle) (s : Scene) (es : List Event)
    (h : s.hasStarted = true) (hlo : BASE_SPEED ≤ s.speed) (hhi : s.speed ≤ MAX_SPEED)
    (hd : ∀ e ∈ es, eventDeltaOk e = true) :
    s.speed ≤ (runEvents ext s es).speed ∧
      BASE_SPEED ≤ (runEvents ext s es).speed ∧
      (runEvents ext s es).speed ≤ MAX_SPEED := by
  induction es generalizing s with
  | nil => exact ⟨le_refl _, hlo, hhi⟩
  | cons e es ih =>
      have hde : eventDeltaOk e = true := hd e (List.mem_cons_self e es)
      obtain ⟨m1, m2, m3⟩ := step_speed_bounds ext e s h hde hlo hhi
      have hst : (step ext s e).hasStarted = true := step_hasStarted ext e s h
      obtain ⟨n1, n2, n3⟩ := ih (step ext s e) hst m2 m3
        (fun e' he' => hd e' (List.mem_cons_of_mem e he'))
      exact ⟨le_trans m1 n1, n2, n3⟩

/-- C2 witness: a frame, a pointer-up and the overlap event from the fresh
running state keep the speed monotone and within the bounds. -/
theorem c2_speed_monotone_bounded_witness :
    runningState.speed ≤
        (runEvents idOracle runningState
          [Event.frame 16 16 true false false true, Event.pup, Event.overlap]).speed ∧
      BASE_SPEED ≤
        (runEvents idOracle runningState
          [Event.frame 16 16 true false false true, Event.pup, Event.overlap]).speed ∧
      (runEvents idOracle runningState
          [Event.frame 16 16 true false false true, Event.pup, Event.overlap]).speed ≤
        MAX_SPEED :=
  c2_speed_monotone_bounded idOracle runningState
    [Event.frame 16 16 true false false true, Event.pup, Event.overlap]
    (by decide)
    (by norm_num [runningState, startGame, create, BASE_SPEED])
    (by norm_num [runningState, startGame, create, BASE_SPEED, MAX_SPEED])
    (by
      intro e he
      simp only [List.mem_cons, List.not_mem_nil, or_false] at he
      rcases he with rfl | rfl | rfl <;> norm_num [eventDeltaOk])

/-- C7: on a spawn frame (run active and `nextSpawnAt ≤ time`), the new
schedule is `nextSpawnAt = time + gap` with
`gap = clamp (920 - (speed - BASE_SPEED) * 0.8) 560 920` computed from the
frame's updated speed, and for every possible speed value that gap lies
within `[560, 920]`. -/
theorem c7_spawn_gap_clamped (ext : FloatOracle) (t d : ℚ) (g j sh sp : Bool)
    (s : Scene) (h1 : s.gameIsOver = false) (h2 : s.hasStarted = true)
    (h3 : s.nextSpawnAt ≤ t) :
    (update ext t d g j sh sp s).nextSpawnAt =
        t + clampQ (920 - ((update ext t d g j sh sp s).speed - BASE_SPEED) * 0.8)
          560 920 ∧
      (∀ v : ℚ, 560 ≤ clampQ (920 - (v - BASE_SPEED) * 0.8) 560 920 ∧
        clampQ (920 - (v - BASE_SPEED) * 0.8) 560 920 ≤ 920) := by
  refine ⟨?_, fun v => clampQ_mem _ _ _ (by norm_num)⟩
  rw [update_running_speed ext t d g j sh sp s h1 h2,
    update_running_nextSpawnAt ext t d g j sh sp s h1 h2 h3]

/-- C7 witness: the fresh running state at frame time 1000 (past the first
schedule at 900), plus the gap bounds instantiated at speed 5000. -/
theorem c7_spawn_gap_clamped_witness :
    (update idOracle 1000 16 true false false true runningState).nextSpawnAt =
        1000 + clampQ
          (920 - ((update idOracle 1000 16 true false false true runningState).speed -
            BASE_SPEED) * 0.8) 560 920 ∧
      (560 ≤ clampQ (920 - (5000 - BASE_SPEED) * 0.8) 560 920 ∧
        clampQ (920 - (5000 - BASE_SPEED) * 0.8) 560 920 ≤ 920) := by
  have hc := c7_spawn_gap_clamped idOracle 1000 16 true false false true runningState
    (by decide) (by decide) (by norm_num [runningState, startGame, create])
  exact ⟨hc.1, hc.2 5000⟩

/-- C9: drag gesture classification — mostly-horizontal drags
(`|dx| > tolerance` and `|dx| > |dy|`) fire nothing; otherwise
`dy > threshold` classifies as slide and `dy < -threshold` as jump; the
drag `(10, 80)` is a slide and `(100, 60)` is ignored; a slide/jump
classification dispatches the slide/jump command with the fired flag set;
a fired drag blocks further `pointermove` commands, so at most one command
fires per drag. -/
theorem c9_gesture_classification :
    (∀ dx dy : ℚ, |dx| > SWIPE_X_TOLERANCE → |dx| > |dy| →
        classifyGesture dx dy = none) ∧
      (∀ dx dy : ℚ, ¬(|dx| > SWIPE_X_TOLERANCE ∧ |dx| > |dy|) →
        dy > SWIPE_Y_THRESHOLD → classifyGesture dx dy = some GestureCmd.slide) ∧
      (∀ dx dy : ℚ, ¬(|dx| > SWIPE_X_TOLERANCE ∧ |dx| > |dy|) →
        dy < -SWIPE_Y_THRESHOLD → classifyGesture dx dy = some GestureCmd.jump) ∧
      classifyGesture 10 80 = some GestureCmd.slide ∧
      classifyGesture 100 60 = none ∧
      (∀ (ext : FloatOracle) (now px py : ℚ) (dwn g : Bool) (s : Scene),
        s.touchGestureFired = true → pointermove ext now px py dwn g s = s) ∧
      (∀ (ext : FloatOracle) (s : Scene) (ms : List PMove),
        dragFireCount ext s ms ≤ 1) := by
  refine ⟨?_, ?_, ?_, ?_, ?_, fired_pointermove_noop, dragFireCount_le_one⟩
  · intro dx dy hx hxy
    unfold classifyGesture
    rw [if_pos ⟨hx, hxy⟩]
  · intro dx dy hn hy
    unfold classifyGesture
    rw [if_neg hn, if_pos hy]
  · intro dx dy hn hy
    have hny : ¬(dy > SWIPE_Y_THRESHOLD) := by
      rw [SWIPE_Y_THRESHOLD] at hy ⊢
      rw [not_lt]
      nlinarith
    unfold classifyGesture
    rw [if_neg hn, if_neg hny, if_pos hy]
  · norm_num [classifyGesture, SWIPE_X_TOLERANCE, SWIPE_Y_THRESHOLD]
  · norm_num [classifyGesture, SWIPE_X_TOLERANCE, SWIPE_Y_THRESHOLD]

/-- C9 witness: the two scenario drags, the fired-flag block at a concrete
mid-drag state, and one concrete at-most-one-command drag count. -/
theorem c9_gesture_classification_witness :
    classifyGesture 100 60 = none ∧
      classifyGesture 10 80 = some GestureCmd.slide ∧
      classifyGesture 0 (-60) = some GestureCmd.jump ∧
      pointermove idOracle 3 10 80 true true firedState = firedState ∧
      dragFireCount idOracle runningState
        [{ now := 3, px := 10, py := 80, isDown := true, grounded := true }] ≤ 1 := by
  obtain ⟨h1, h2, h3, _, _, h6, h7⟩ := c9_gesture_classification
  refine ⟨?_, ?_, ?_, ?_, ?_⟩
  · exact h1 100 60 (by norm_num [SWIPE_X_TOLERANCE]) (by norm_num)
  · exact h2 10 80 (by norm_num [SWIPE_X_TOLERANCE]) (by norm_num [SWIPE_Y_THRESHOLD])
  · exact h3 0 (-60) (by norm_num [SWIPE_X_TOLERANCE]) (by norm_num [SWIPE_Y_THRESHOLD])
  · exact h6 idOracle 3 10 80 true true firedState (by decide)
  · exact h7 idOracle runningState
      [{ now := 3, px := 10, py := 80, isDown := true, grounded := true }]

end Runner
